import Mathlib

/-!
Formal model of the Platform-Adaptive Scraping Engine of the
social-media-scraper-api repository.

Pure utility functions (`src/utils/scraperUtils.js`) are translated directly.
Browser-driven code (`src/services/realisticScrapingService.js`) is embedded as
explicit state passing: every interaction with the external browser automation
capability (navigation results, DOM query results, thrown error messages) is an
input supplied through an environment record, and durable session state is a
`World` value threaded through calls.  JavaScript instants (`Date.getTime()`)
are modelled as `Int` milliseconds since the epoch; `toISOString`/`new Date`
round-trip a valid instant exactly at millisecond precision, so a stored ISO
string is identified with its instant.
-/

/-! ### JavaScript string primitives -/

/-- Lowercases an ASCII uppercase letter, like `String.prototype.toLowerCase`
restricted to the ASCII range (all inputs relevant here are ASCII). -/
def lcChar (c : Char) : Char :=
  if 'A' ≤ c && c ≤ 'Z' then Char.ofNat (c.toNat + 32) else c

/-- Case-insensitive literal match: if the keyword `kw` is a prefix of `cs`
(comparing characters through `lcChar`, as a `/i` regex literal does),
returns the remainder of `cs` after the keyword. -/
def lcMatchKw : List Char → List Char → Option (List Char)
  | [], cs => some cs
  | _ :: _, [] => none
  | k :: ks, c :: cs => if lcChar c = lcChar k then lcMatchKw ks cs else none

/-- Exact prefix test on character lists. -/
def listIsPref : List Char → List Char → Bool
  | [], _ => true
  | _ :: _, [] => false
  | a :: as, b :: bs => a = b && listIsPref as bs

/-- Substring search on character lists. -/
def listHasInfix (needle : List Char) : List Char → Bool
  | [] => needle.isEmpty
  | c :: rest => listIsPref needle (c :: rest) || listHasInfix needle rest

/-- Model of `String.prototype.includes` (case-sensitive substring test). -/
def jsIncludes (s sub : String) : Bool :=
  listHasInfix sub.toList s.toList

/-- Model of `String.prototype.toLowerCase` on the ASCII range. -/
def jsToLower (s : String) : String :=
  String.mk (s.toList.map lcChar)

/-- Characters matched by the regex class `\s` (the inputs that occur here are
ASCII whitespace). -/
def isWsChar (c : Char) : Bool :=
  c = ' ' || c = '\t' || c = '\n' || c = '\r' || c = '\x0b' || c = '\x0c'

/-- Characters matched by the regex class `[\d,]`. -/
def isDigitComma (c : Char) : Bool :=
  c.isDigit || c = ','

/-- Numeric value of a digit string, as `parseInt` computes it on an
all-digit input. -/
def digitsVal (ds : List Char) : Nat :=
  ds.foldl (fun n c => n * 10 + (c.toNat - 48)) 0

/-! ### `parseTimeframe` (src/utils/scraperUtils.js)

The source computes `timeMap[timeframe] || timeMap['7d']`.  `timeMap` is a
plain object literal, so the property read consults the prototype chain:
for the seven own keys it yields their (nonzero, truthy) numbers, for a
property name inherited from `Object.prototype` it yields that inherited
member — a truthy function, or the prototype object itself for
`__proto__` — and only for every other name does it yield `undefined`,
letting the `||` fall back to the `'7d'` entry.  `parseTimeframeJs` below
is the faithful translation; `parseTimeframe` is the numeric cutoff used
by the acquisition-loop model (see its comment for why that is sound). -/

/-- Property names every plain object inherits from `Object.prototype` in
Node.js, each bound to a truthy value (a function, or the prototype object
for the `__proto__` accessor). -/
def objectProtoMembers : List String :=
  ["constructor", "hasOwnProperty", "isPrototypeOf", "propertyIsEnumerable",
   "toLocaleString", "toString", "valueOf", "__proto__",
   "__defineGetter__", "__defineSetter__", "__lookupGetter__", "__lookupSetter__"]

/-- Value of the JavaScript property read `timeMap[timeframe]`: an own
entry's number, an inherited truthy `Object.prototype` member, or
`undefined` (falsy). -/
inductive TimeMapRead where
  | num (n : Nat)
  | protoMember (name : String)
  | jsUndefined
deriving DecidableEq

/-- The property read `timeMap[timeframe]` with prototype-chain lookup
semantics: own keys first, then `Object.prototype`. -/
def timeMapRead (timeframe : String) : TimeMapRead :=
  if timeframe = "1h" then .num (60 * 60 * 1000)
  else if timeframe = "6h" then .num (6 * 60 * 60 * 1000)
  else if timeframe = "12h" then .num (12 * 60 * 60 * 1000)
  else if timeframe = "1d" then .num (24 * 60 * 60 * 1000)
  else if timeframe = "3d" then .num (3 * 24 * 60 * 60 * 1000)
  else if timeframe = "7d" then .num (7 * 24 * 60 * 60 * 1000)
  else if timeframe = "30d" then .num (30 * 24 * 60 * 60 * 1000)
  else if timeframe ∈ objectProtoMembers then .protoMember timeframe
  else .jsUndefined

/-- Translation of `parseTimeframe` with full JavaScript lookup semantics:
`timeMap[timeframe] || timeMap['7d']` keeps any truthy read — the map's
numbers, but also inherited `Object.prototype` members — and falls back to
the `'7d'` entry only on the falsy `undefined`.  For a prototype-member
name the function therefore returns a non-number, contradicting its own
`@returns {number}` documentation. -/
def parseTimeframeJs (timeframe : String) : TimeMapRead :=
  match timeMapRead timeframe with
  | .num n => .num n
  | .protoMember name => .protoMember name
  | .jsUndefined => .num (7 * 24 * 60 * 60 * 1000)

/-- The millisecond cutoff duration used by the acquisition-loop model.
It equals the source's `parseTimeframe` on the seven known keys and on
every unknown string that is not an `Object.prototype` member name.  For a
prototype-member name the source returns the inherited member instead of a
number (see `parseTimeframeJs`); then `Date.now() - member` is `NaN`, the
cutoff is an Invalid Date, every `<` and `>=` comparison against it is
false, and the final filter of the scrape loops empties the result — so
every theorem bounding the dates of returned posts by this numeric cutoff
also holds of the program on those inputs (the real output is empty
there). -/
def parseTimeframe (timeframe : String) : Nat :=
  if timeframe = "1h" then 60 * 60 * 1000
  else if timeframe = "6h" then 6 * 60 * 60 * 1000
  else if timeframe = "12h" then 12 * 60 * 60 * 1000
  else if timeframe = "1d" then 24 * 60 * 60 * 1000
  else if timeframe = "3d" then 3 * 24 * 60 * 60 * 1000
  else if timeframe = "7d" then 7 * 24 * 60 * 60 * 1000
  else if timeframe = "30d" then 30 * 24 * 60 * 60 * 1000
  else 7 * 24 * 60 * 60 * 1000

/-- The keys of `timeMap` in `parseTimeframe`. -/
def knownTimeframes : List String :=
  ["1h", "6h", "12h", "1d", "3d", "7d", "30d"]

/-! ### `generatePostId` (src/utils/scraperUtils.js) -/

/-- Characters kept by the sanitizing replace `[^a-zA-Z0-9_]` in
`generatePostId`. -/
def isIdChar (c : Char) : Bool :=
  ('a' ≤ c && c ≤ 'z') || ('A' ≤ c && c ≤ 'Z') || ('0' ≤ c && c ≤ '9') || c = '_'

/-- The global replace `.replace(/[^a-zA-Z0-9_]/g, '_')`: each character
outside `[a-zA-Z0-9_]` becomes a single underscore. -/
def sanitizeIdText (s : String) : String :=
  String.mk (s.toList.map (fun c => if isIdChar c then c else '_'))

/-- Translation of `generatePostId`: the template
`platform_author_timestamp_index` with the sanitizing replace applied.
`timestamp` and `index` are JS numbers; on the integral values that occur
their stringification is decimal (with a leading minus for negatives),
matching `toString` on `Int`. -/
def generatePostId (platform author : String) (timestamp index : Int) : String :=
  sanitizeIdText (platform ++ "_" ++ author ++ "_" ++ toString timestamp ++ "_" ++ toString index)

/-! ### `parseStats` (src/utils/scraperUtils.js)

Every pattern in the per-platform tables has one of two shapes:

* `/(\d+[\d,]*)\s*K/i` where `K` is an alternation of literal keywords
  (a trailing `s?` or an internal `s?` inside an alternative never affects
  whether the regex matches, nor capture group 1, because nothing follows
  it in the pattern; such alternatives are recorded by their mandatory
  part, e.g. `likes?` as `like`);
* `/kw.*?(\d+[\d,]*)/i` (only in the common fallback table), where `.`
  does not cross a line terminator.

Matching follows JavaScript semantics: the leftmost starting position wins;
at a position, `\d+[\d,]*` greedily takes the maximal run of digits and
commas beginning with a digit (no backtracking can help, since the classes
`[\d,]`, `\s` and the keyword letters are pairwise disjoint), then `\s*`
takes the maximal whitespace run, then an alternative must match literally
and case-insensitively. -/

/-- One regular-expression pattern of `parseStats`. -/
inductive StatPattern where
  | numKw (alts : List String)
  | kwNum (kw : String)
deriving DecidableEq

/-- Attempt of a `numKw` pattern anchored at the current position: a maximal
digit-and-comma run starting with a digit, optional whitespace, then one of
the alternatives.  Returns capture group 1. -/
def numKwTryAt (alts : List String) (cs : List Char) : Option (List Char) :=
  match cs with
  | [] => none
  | c :: _ =>
    if c.isDigit then
      let cap := cs.takeWhile isDigitComma
      let rest := (cs.dropWhile isDigitComma).dropWhile isWsChar
      if alts.any (fun a => (lcMatchKw a.toList rest).isSome) then some cap else none
    else none

/-- Leftmost match of a `numKw` pattern: starting positions are tried left
to right, as `String.prototype.match` does. -/
def numKwScan (alts : List String) : List Char → Option (List Char)
  | [] => none
  | c :: rest =>
    match numKwTryAt alts (c :: rest) with
    | some cap => some cap
    | none => numKwScan alts rest

/-- After the keyword of a `kwNum` pattern, the lazy `.*?` extends to the
first digit on the same line; a line terminator fails this starting
position.  Returns capture group 1. -/
def kwNumSeek : List Char → Option (List Char)
  | [] => none
  | c :: rest =>
    if c = '\n' || c = '\r' then none
    else if c.isDigit then some ((c :: rest).takeWhile isDigitComma)
    else kwNumSeek rest

/-- Attempt of a `kwNum` pattern anchored at the current position. -/
def kwNumTryAt (kw : String) (cs : List Char) : Option (List Char) :=
  match lcMatchKw kw.toList cs with
  | none => none
  | some rest => kwNumSeek rest

/-- Leftmost match of a `kwNum` pattern. -/
def kwNumScan (kw : String) : List Char → Option (List Char)
  | [] => none
  | c :: rest =>
    match kwNumTryAt kw (c :: rest) with
    | some cap => some cap
    | none => kwNumScan kw rest

/-- Capture group 1 of a pattern against the whole text, `match[1]`. -/
def runStatPattern (p : StatPattern) (cs : List Char) : Option (List Char) :=
  match p with
  | .numKw alts => numKwScan alts cs
  | .kwNum kw => kwNumScan kw cs

/-- Model of `parseInt` applied to the comma-stripped capture: commas stripped, then the
digit run's value.  Capture group 1 always begins with a digit, so the
`isNaN` guard in the source never rejects it. -/
def captureVal (cap : List Char) : Nat :=
  digitsVal (cap.filter (fun c => c ≠ ','))

/-- The inner loop of `parseStats` for one stat key: the first pattern that
matches supplies the value (`break` after the first success). -/
def runStatPatterns : List StatPattern → List Char → Option Nat
  | [], _ => none
  | p :: rest, cs =>
    match runStatPattern p cs with
    | some cap => some (captureVal cap)
    | none => runStatPatterns rest cs

/-- Table `platformPatterns.twitter` (keys in insertion order). -/
def twitterStatPatterns : List (String × List StatPattern) :=
  [("likes", [.numKw ["like", "heart", "ðŸ‘", "â™¥ï¸"], .numKw ["like"]]),
   ("retweets", [.numKw ["retweet", "repost", "ðŸ”„"], .numKw ["retweet"]]),
   ("replies", [.numKw ["repl", "comment", "ðŸ’¬"], .numKw ["replie"]])]

/-- Table `platformPatterns.facebook`. -/
def facebookStatPatterns : List (String × List StatPattern) :=
  [("likes", [.numKw ["like", "ðŸ‘", "reaction"], .numKw ["people reacted"]]),
   ("comments", [.numKw ["comment", "ðŸ’¬"], .numKw ["comment"]]),
   ("shares", [.numKw ["share", "ðŸ”„"], .numKw ["share"]])]

/-- Table `platformPatterns.instagram`. -/
def instagramStatPatterns : List (String × List StatPattern) :=
  [("likes", [.numKw ["like", "â¤ï¸"], .numKw ["like"]]),
   ("comments", [.numKw ["comment", "ðŸ’¬"], .numKw ["comment"]]),
   ("views", [.numKw ["view", "ðŸ‘ï¸"], .numKw ["view"]])]

/-- Table `platformPatterns.tiktok`. -/
def tiktokStatPatterns : List (String × List StatPattern) :=
  [("likes", [.numKw ["like", "â¤ï¸"], .numKw ["like"]]),
   ("comments", [.numKw ["comment", "ðŸ’¬"], .numKw ["comment"]]),
   ("shares", [.numKw ["share", "â†—ï¸"], .numKw ["share"]]),
   ("views", [.numKw ["view", "play"], .numKw ["view"]])]

/-- Table `platformPatterns.youtube`. -/
def youtubeStatPatterns : List (String × List StatPattern) :=
  [("likes", [.numKw ["like", "ðŸ‘"], .numKw ["like"]]),
   ("dislikes", [.numKw ["dislike", "ðŸ‘Ž"], .numKw ["dislike"]]),
   ("views", [.numKw ["view", "ðŸ‘ï¸"], .numKw ["view"]]),
   ("subscribers", [.numKw ["subscriber", "sub"], .numKw ["subscriber"]])]

/-- Table `commonPatterns`, the fallback table for platforms without a specific
table. -/
def commonStatPatterns : List (String × List StatPattern) :=
  [("likes", [.numKw ["like", "heart", "ðŸ‘", "â™¥ï¸", "â¤ï¸"], .numKw ["like"], .kwNum "like"]),
   ("comments", [.numKw ["comment", "reply", "ðŸ’¬"], .numKw ["comment"], .kwNum "comment"]),
   ("shares", [.numKw ["share", "retweet", "repost", "ðŸ”„"],
               .numKw ["share", "retweet", "repost"], .kwNum "share"]),
   ("views", [.numKw ["view", "impression", "ðŸ‘ï¸"], .numKw ["view"], .kwNum "view"])]

/-- Dispatch `platformPatterns[platform] || commonPatterns`. -/
def statPatternsFor (platform : String) : List (String × List StatPattern) :=
  if platform = "twitter" then twitterStatPatterns
  else if platform = "facebook" then facebookStatPatterns
  else if platform = "instagram" then instagramStatPatterns
  else if platform = "tiktok" then tiktokStatPatterns
  else if platform = "youtube" then youtubeStatPatterns
  else commonStatPatterns

/-- Translation of `parseStats`: an empty `statsText` is falsy and yields the
empty object; otherwise each configured key in table order receives the value
of its first matching pattern, and keys without a match are omitted. -/
def parseStats (statsText : String) (platform : String) : List (String × Nat) :=
  if statsText = "" then []
  else
    (statPatternsFor platform).foldl
      (fun stats kp =>
        match runStatPatterns kp.2 statsText.toList with
        | some n => stats ++ [(kp.1, n)]
        | none => stats) []

/-! ### `parseFacebookDate` (src/services/realisticScrapingService.js)

A JavaScript `Date` object is either a valid instant or the Invalid Date
(`NaN` time value); both are truthy as objects, unlike `null`.  The
branches that delegate to the JS `Date` runtime — `new Date(dateText)` on
arbitrary text, and the month-name branch that builds a date from
`"<Month> <day>, <year>"` with `now.getFullYear()`, the `date > now` check
and the possible `setFullYear(year - 1)` correction (calendar and local
timezone dependent) — are supplied as oracle functions, with `none`
standing for an Invalid Date result. -/

/-- A JavaScript `Date` value: a valid instant or the Invalid Date. -/
inductive JsDate where
  | valid (ms : Int)
  | invalid
deriving DecidableEq

/-- A unit of the relative-time regex `(minute|hour|day|week)`. -/
inductive FbUnit where
  | minute
  | hour
  | day
  | week
deriving DecidableEq

/-- Milliseconds of each unit, as in the `switch` of `parseFacebookDate`. -/
def fbUnitMs : FbUnit → Nat
  | .minute => 60 * 1000
  | .hour => 60 * 60 * 1000
  | .day => 24 * 60 * 60 * 1000
  | .week => 7 * 24 * 60 * 60 * 1000

/-- After the unit keyword: the optional `s?` (greedy, but both orders give
the same outcome since `s` never begins `\s*ago`), whitespace, then the
literal `ago`, case-insensitively. -/
def fbAgoTail (r : List Char) : Bool :=
  (match r with
   | c :: rest => lcChar c = 's' && (lcMatchKw "ago".toList (rest.dropWhile isWsChar)).isSome
   | [] => false)
  || (lcMatchKw "ago".toList (r.dropWhile isWsChar)).isSome

/-- The unit alternation at the current position; the four alternatives have
pairwise distinct first letters, so at most one can match and the regex
alternation order is immaterial. -/
def fbUnitAt (r : List Char) : Option FbUnit :=
  match lcMatchKw "minute".toList r with
  | some r2 => if fbAgoTail r2 then some .minute else none
  | none =>
    match lcMatchKw "hour".toList r with
    | some r2 => if fbAgoTail r2 then some .hour else none
    | none =>
      match lcMatchKw "day".toList r with
      | some r2 => if fbAgoTail r2 then some .day else none
      | none =>
        match lcMatchKw "week".toList r with
        | some r2 => if fbAgoTail r2 then some .week else none
        | none => none

/-- Leftmost match of `/(\d+)\s*(minute|hour|day|week)s?\s*ago/i`: at each
starting position a maximal digit run (greedy `\d+`; giving digits back
cannot help because a digit can continue neither `\s*` into a letter nor a
unit keyword), whitespace, then the unit and tail. -/
def fbAgoMatch : List Char → Option (Nat × FbUnit)
  | [] => none
  | c :: rest =>
    match
      (if c.isDigit then
        match fbUnitAt (((c :: rest).dropWhile Char.isDigit).dropWhile isWsChar) with
        | some u => some (digitsVal ((c :: rest).takeWhile Char.isDigit), u)
        | none => none
      else none) with
    | some r => some r
    | none => fbAgoMatch rest

/-- The twelve month-name alternatives of the month/day regex, in source
order.  No name is a prefix of another, so at any position at most one
matches. -/
def fbMonthNames : List String :=
  ["January", "February", "March", "April", "May", "June", "July",
   "August", "September", "October", "November", "December"]

/-- Attempt of `/(Month...)\s+(\d{1,2})/i` anchored at the current position:
a month name (case-insensitively; capture 1 is the original slice), at
least one whitespace character, then one or two digits (greedy `{1,2}`).
Returns the captured month text and the day value. -/
def fbMonthTryAt (names : List String) (cs : List Char) : Option (String × Nat) :=
  match names with
  | [] => none
  | name :: others =>
    match lcMatchKw name.toList cs with
    | some rest =>
      (match rest with
       | w :: _ =>
         if isWsChar w then
           match rest.dropWhile isWsChar with
           | d1 :: tail =>
             if d1.isDigit then
               match tail with
               | d2 :: _ =>
                 if d2.isDigit then
                   some (String.mk (cs.take name.length), digitsVal [d1, d2])
                 else some (String.mk (cs.take name.length), digitsVal [d1])
               | [] => some (String.mk (cs.take name.length), digitsVal [d1])
             else none
           | [] => none
         else none
       | [] => none)
    | none => fbMonthTryAt others cs

/-- Leftmost match of the month/day regex. -/
def fbMonthMatch : List Char → Option (String × Nat)
  | [] => none
  | c :: rest =>
    match fbMonthTryAt fbMonthNames (c :: rest) with
    | some r => some r
    | none => fbMonthMatch rest

/-- Translation of `RealisticScrapingService.parseFacebookDate`.

`jsD` is the oracle for `new Date(dateText)` on free-form text (the final
fallback, guarded by `isNaN`, so `none` there yields `null`); `monthD` is
the oracle for the month-name branch, which always returns a `Date` object
(possibly invalid).  Control flow follows the source: the `includes('ago')`
gate is case-sensitive while the regex is case-insensitive, and a failed
relative-time match falls through to the remaining branches.  The
surrounding `try` never fires in this pure model. -/
def parseFacebookDate (jsD : String → Option Int) (monthD : String → Nat → Option Int)
    (now : Int) (dateText : String) : Option JsDate :=
  match (if jsIncludes dateText "ago" then fbAgoMatch dateText.toList else none) with
  | some vu => some (.valid (now - (vu.1 : Int) * (fbUnitMs vu.2 : Int)))
  | none =>
    if jsIncludes (jsToLower dateText) "yesterday" then
      some (.valid (now - 24 * 60 * 60 * 1000))
    else
      match fbMonthMatch dateText.toList with
      | some md =>
        some (match monthD md.1 md.2 with
              | some t => .valid t
              | none => .invalid)
      | none =>
        match jsD dateText with
        | some t => some (.valid t)
        | none => none

/-! ### Post records and per-element extraction
(src/services/realisticScrapingService.js)

A raw post element is a live DOM handle; what extraction observes of it is
recorded in an element value.  `failing` stands for an element on which any
of the DOM evaluations throws — the per-element `try`/`catch` turns that
into `null`.  The free `sanitize` parameter stands for `sanitizeText` of
scraperUtils (a pure text cleanup that no claim touches); every theorem
below holds for an arbitrary such function. -/

/-- The output post record, as assembled by the extraction functions.
`date` is the instant denoted by the stored `postDate.toISOString()` string
and `timestamp` is `postDate.getTime()`; both equal the extracted instant. -/
structure JsPost where
  id : String
  text : String
  author : String
  date : Int
  timestamp : Int
  platform : String
  url : String
  stats : List (String × Nat)
deriving DecidableEq

/-- What `extractTwitterPostData` observes of one `[data-testid="tweet"]`
element: the optional text and author nodes, the `time` element's
`datetime` attribute as an instant (`none` when the `time` element is
absent — the early `return null` — or its attribute does not denote a
valid instant, in which case `toISOString()` throws and the `catch`
returns `null`), the post URL (empty when no status link is found), and
the text of the `[role="group"]` stats container when present. -/
inductive RawElem where
  | elem (text : Option String) (author : Option String) (datetime : Option Int)
      (url : String) (statsText : Option String)
  | failing
deriving DecidableEq

/-- Translation of `extractTwitterPostData`: elements without a usable
timestamp and elements older than the cutoff yield `null`; otherwise the
post record is assembled, with `generatePostId('twitter', author,
postDate.getTime(), 0)` computed from the raw author text and the stats
parsed from the stats container through `parseStats(…, 'twitter')`. -/
def extractTwitterPostData (sanitize : String → String) (cutoffDate : Int) :
    RawElem → Option JsPost
  | .failing => none
  | .elem text author datetime url statsText =>
    match datetime with
    | none => none
    | some postDate =>
      if postDate < cutoffDate then none
      else
        some
          { id := generatePostId "twitter" (author.getD "") postDate 0
            text := sanitize (text.getD "")
            author := sanitize (author.getD "")
            date := postDate
            timestamp := postDate
            platform := "twitter"
            url := url
            stats := match statsText with
                     | none => []
                     | some s => parseStats s "twitter" }

/-- One entry of the Facebook date-selector fallback chain, as observed on
an element: either a machine-readable `data-utime` attribute (seconds) or
the displayed date text handed to `parseFacebookDate`. -/
inductive FbDateSrc where
  | utime (sec : Int)
  | text (s : String)
deriving DecidableEq

/-- The date fallback chain of `extractFacebookPostData`: the first
`data-utime` attribute wins (`new Date(parseInt(utime) * 1000)`);
otherwise the first date text on which `parseFacebookDate` returns a
truthy value (a `Date` object, valid or not) wins; `null` results keep
scanning. -/
def resolveFbDate (jsD : String → Option Int) (monthD : String → Nat → Option Int)
    (now : Int) : List FbDateSrc → Option JsDate
  | [] => none
  | .utime sec :: _ => some (.valid (sec * 1000))
  | .text s :: rest =>
    match parseFacebookDate jsD monthD now s with
    | some d => some d
    | none => resolveFbDate jsD monthD now rest

/-- What `extractFacebookPostData` observes of one feed element: the first
non-empty text and author produced by their selector chains, the date
sources in chain order, the permalink when found, and the texts of the
matched stats containers in selector order. -/
inductive FbRawElem where
  | elem (text : Option String) (dateSrcs : List FbDateSrc) (author : Option String)
      (url : String) (statsTexts : List String)
  | failing
deriving DecidableEq

/-- Translation of `extractFacebookStats`: the matched stats-container texts are
concatenated, each preceded by a space, and parsed with platform
`'facebook'`. -/
def extractFacebookStats (statsTexts : List String) : List (String × Nat) :=
  parseStats (statsTexts.foldl (fun acc t => acc ++ " " ++ t) "") "facebook"

/-- Translation of `extractFacebookPostData`: a post with no resolved date
is dropped (`!postDate`), an Invalid Date passes the `postDate <
cutoffDate` comparison (false on `NaN`) but makes `toISOString()` throw,
so the element also yields `null`; a valid date earlier than the cutoff is
dropped; otherwise the record is assembled as in the source. -/
def extractFacebookPostData (sanitize : String → String) (jsD : String → Option Int)
    (monthD : String → Nat → Option Int) (now cutoffDate : Int) :
    FbRawElem → Option JsPost
  | .failing => none
  | .elem text dateSrcs author url statsTexts =>
    match resolveFbDate jsD monthD now dateSrcs with
    | none => none
    | some .invalid => none
    | some (.valid postDate) =>
      if postDate < cutoffDate then none
      else
        some
          { id := generatePostId "facebook" (author.getD "") postDate 0
            text := sanitize (text.getD "")
            author := sanitize (author.getD "")
            date := postDate
            timestamp := postDate
            platform := "facebook"
            url := url
            stats := extractFacebookStats statsTexts }

/-! ### The content acquisition loop -/

/-- The dedup check of the acquisition loops:
`if (data && !posts.find(p => p.id === data.id)) posts.push(data)`. -/
def dedupInsert (posts : List JsPost) (p : JsPost) : List JsPost :=
  if posts.any (fun q => q.id == p.id) then posts else posts ++ [p]

/-- The inner `for` loop of one scroll iteration: each currently visible
element is extracted and, when it yields a post with an unseen id,
appended.  A per-element extraction error only skips that element. -/
def harvestPosts {α : Type} (extract : α → Option JsPost)
    (elems : List α) (posts : List JsPost) : List JsPost :=
  elems.foldl
    (fun acc e =>
      match extract e with
      | some p => dedupInsert acc p
      | none => acc) posts

/-- The `while (scrollAttempts < maxScrolls && posts.length < limit)` loop,
shared shape of `scrapeTwitterPosts` (`maxScrolls = 10`, `limit = 50`) and
`scrapeFacebookPosts` (`maxScrolls = 8`, `limit = 40`).  `page i` lists the
post elements visible during scroll iteration `i`; `remaining` counts the
iterations the `scrollAttempts < maxScrolls` guard still allows. -/
def scrollLoop {α : Type} (extract : α → Option JsPost) (page : Nat → List α)
    (limit : Nat) : Nat → Nat → List JsPost → List JsPost
  | _, 0, posts => posts
  | attempt, remaining + 1, posts =>
    if posts.length < limit then
      scrollLoop extract page limit (attempt + 1) remaining
        (harvestPosts extract (page attempt) posts)
    else posts

/-- Translation of `scrapeTwitterPosts`: cutoff computed from the clock at
entry, up to 10 scroll iterations bounded by 50 collected posts, and the
final filter `posts.filter(post => new Date(post.date) >= cutoffDate)`. -/
def scrapeTwitterPosts (sanitize : String → String) (now : Int) (timeframe : String)
    (page : Nat → List RawElem) : List JsPost :=
  let cutoffDate : Int := now - (parseTimeframe timeframe : Int)
  (scrollLoop (extractTwitterPostData sanitize cutoffDate) page 50 0 10 []).filter
    (fun p => cutoffDate ≤ p.date)

/-- Translation of `scrapeFacebookPosts`: cutoff computed at entry, up to 8
scroll iterations bounded by 40 collected posts, and the same final
filter. -/
def scrapeFacebookPosts (sanitize : String → String) (jsD : String → Option Int)
    (monthD : String → Nat → Option Int) (now : Int) (timeframe : String)
    (page : Nat → List FbRawElem) : List JsPost :=
  let cutoffDate : Int := now - (parseTimeframe timeframe : Int)
  (scrollLoop (extractFacebookPostData sanitize jsD monthD now cutoffDate) page 40 0 8 []).filter
    (fun p => cutoffDate ≤ p.date)

/-! ### `scrapeWithCredentials` (src/services/realisticScrapingService.js)

The request pipeline is embedded as a pure function of the request
arguments, an environment describing how the external browser behaves
during this call, and a `World` of durable session state.  Everything the
call does to shared resources is recorded in an action trace. -/

/-- The platforms present in `scraperConfigs` (config/scraperConfigs.js):
`facebook` has an entry in `platformSettings` but none in `scraperConfigs`,
so `scrapeWithCredentials` rejects it up front. -/
def supportedPlatforms : List String :=
  ["twitter", "instagram", "linkedin"]

/-- Lookup of `config.loginUrl` per platform of `scraperConfigs`. -/
def scraperConfigLoginUrl (platform : String) : Option String :=
  if platform = "twitter" then some "https://twitter.com/login"
  else if platform = "instagram" then some "https://www.instagram.com/accounts/login/"
  else if platform = "linkedin" then some "https://www.linkedin.com/login"
  else none

/-- The session directory resolved for a request: `platform_sessionId` when
a session id is supplied, otherwise `platform_` followed by the first 8
characters of the base64 of the email.  The base64-and-slice step
(`Buffer.from(email).toString('base64').slice(0, 8)`) is the runtime's
encoder, supplied as the function `enc`; the resolved name is a pure
function of the request arguments. -/
def resolveUserDataDir (enc : String → String) (platform email : String)
    (sessionId : Option String) : String :=
  match sessionId with
  | some sid => platform ++ "_" ++ sid
  | none => platform ++ "_" ++ enc email

/-- An observable action of one `scrapeWithCredentials` call on shared
resources. -/
inductive SvcAction where
  | launchBrowser (userDataDir : String)
  | checkSession (userDataDir : String)
  | performLogin
  | saveSessionState (userDataDir : String)
  | cleanSessionAct (userDataDir : String)
deriving DecidableEq

/-- Durable state shared between calls: the session directories whose
persisted browser profile currently holds a logged-in session. -/
structure World where
  validSession : List String
deriving DecidableEq

/-- The `data` object of a successful `scrapeWithCredentials` response.
`sessionUsed` is the field the source returns (`sessionUsed:
!!isLoggedIn`); it is the spec's `sessionReused` flag. -/
structure ScrapeData where
  platform : String
  targetUser : String
  timeframe : String
  totalPosts : Nat
  scrapedAt : Int
  sessionUsed : Bool
  posts : List JsPost
deriving DecidableEq

/-- How one call ends: a success value, an error surfaced to the caller
with its message, or the `ReferenceError` raised inside the `catch` block
itself (see `scrapeCatchOutcome`). -/
inductive ScrapeOutcome where
  | ok (r : ScrapeData)
  | err (msg : String)
  | referenceError
deriving DecidableEq

/-- The `catch` block of `scrapeWithCredentials`.  `userDataDir` is
declared with `const` inside the `try` block, so the `catch` block has no
binding for it: when the error message contains `'login'` or
`'authentication'` (case-sensitively), evaluating
`this.cleanSession(userDataDir)` throws
`ReferenceError: userDataDir is not defined` before `cleanSession` can
run, and neither the session cleanup nor the
`Authentication failed: …` rethrow is reached.  Any other error is
rethrown unchanged. -/
def scrapeCatchOutcome (msg : String) : ScrapeOutcome :=
  if jsIncludes msg "login" || jsIncludes msg "authentication" then .referenceError
  else .err msg

/-- How the external browser behaves during one call, together with the
call's clock and runtime encoders. -/
structure ScrapeEnv where
  now : Int
  enc : String → String
  sanitize : String → String
  jsD : String → Option Int
  monthD : String → Nat → Option Int
  checkNavOk : Bool
  loginErr : Option String
  pageT : Nat → List RawElem
  pageF : Nat → List FbRawElem

/-- Result of one modelled call: the outcome, the durable state after the
call, and the trace of shared-resource actions. -/
structure CallResult where
  outcome : ScrapeOutcome
  world : World
  trace : List SvcAction
deriving DecidableEq

/-- Translation of `scrapeTargetProfile`: navigate to the profile and dispatch on the
platform; only `twitter` and `facebook` branches exist, every other
platform throws. -/
def scrapeTargetProfile (env : ScrapeEnv) (platform _targetUser timeframe : String) :
    Except String (List JsPost) :=
  if platform = "twitter" then
    .ok (scrapeTwitterPosts env.sanitize env.now timeframe env.pageT)
  else if platform = "facebook" then
    .ok (scrapeFacebookPosts env.sanitize env.jsD env.monthD env.now timeframe env.pageF)
  else
    .error ("Scraping not implemented for platform: " ++ platform)

/-- Translation of `scrapeWithCredentials`.

An unsupported platform throws before the `try` block, so no browser is
launched.  Otherwise a stealth browser is launched on the resolved session
directory unconditionally — the service object holds no lock, queue or
in-use registry, so nothing about other in-flight calls is even consulted.
`checkExistingSession` reports a logged-in marker exactly when the home
navigation succeeds (`checkNavOk`) and the persisted profile holds a valid
session; on a missing session the login is performed
(`env.loginErr` is the message it throws, if any) and the session state
saved.  Errors reach the `catch` block modelled by `scrapeCatchOutcome`;
the trace records that no path executes `cleanSession`. -/
def scrapeWithCredentials (env : ScrapeEnv) (w : World)
    (email _password targetUser platform timeframe : String)
    (sessionId : Option String) : CallResult :=
  if platform ∈ supportedPlatforms then
    let dir := resolveUserDataDir env.enc platform email sessionId
    let isLoggedIn := env.checkNavOk && w.validSession.contains dir
    let tr0 : List SvcAction := [.launchBrowser dir, .checkSession dir]
    if isLoggedIn then
      match scrapeTargetProfile env platform targetUser timeframe with
      | .ok posts =>
        { outcome := .ok
            { platform := platform, targetUser := targetUser, timeframe := timeframe
              totalPosts := posts.length, scrapedAt := env.now
              sessionUsed := true, posts := posts }
          world := w, trace := tr0 }
      | .error msg =>
        { outcome := scrapeCatchOutcome msg, world := w, trace := tr0 }
    else
      match env.loginErr with
      | some msg =>
        { outcome := scrapeCatchOutcome msg, world := w
          trace := tr0 ++ [.performLogin] }
      | none =>
        let w1 : World := { validSession := dir :: w.validSession }
        let tr1 := tr0 ++ [.performLogin, .saveSessionState dir]
        match scrapeTargetProfile env platform targetUser timeframe with
        | .ok posts =>
          { outcome := .ok
              { platform := platform, targetUser := targetUser, timeframe := timeframe
                totalPosts := posts.length, scrapedAt := env.now
                sessionUsed := false, posts := posts }
            world := w1, trace := tr1 }
        | .error msg =>
          { outcome := scrapeCatchOutcome msg, world := w1, trace := tr1 }
  else
    { outcome := .err ("Unsupported platform: " ++ platform ++
        ". Supported platforms: twitter, instagram, linkedin")
      world := w, trace := [] }

/-! ### `testCredentials` (src/services/realisticScrapingService.js) -/

/-- How the external browser behaves during one `testCredentials` call:
the message rejected by `puppeteer.launch` (in which case the `browser`
variable is never assigned), by page creation (`createStealthPage`, after
`browser` is assigned), by the login-page navigation, or by the login
steps, if any; the outcome of the final logged-in probe
(`checkLoginSuccess` swallows its own errors and returns a boolean); and
the message rejected by the `finally` block's `browser.close()`, if
any. -/
structure TestCredEnv where
  launchErr : Option String
  newPageErr : Option String
  gotoErr : Option String
  loginStepsErr : Option String
  checkSuccess : Bool
  closeErr : Option String

/-- The record `testCredentials` resolves with. -/
structure TestCredResult where
  loginSuccessful : Bool
  requires2FA : Bool
  sessionSaved : Bool
deriving DecidableEq

/-- The `try` body of `testCredentials`: launch, page creation, config
lookup and navigation, best-effort popup dismissal (which never throws),
the login steps, and the logged-in probe.  An unsupported platform leaves
`config` undefined and `config.loginUrl` throws a `TypeError`; a platform
name inherited from `Object.prototype` makes `scraperConfigs[platform]`
truthy instead, so `config.loginUrl` is `undefined` and it is `page.goto`
that rejects — either way the message reaches the same `catch` and
contains neither `2FA` nor `verification`. -/
def testCredentialsBody (env : TestCredEnv) (platform : String) :
    Except String TestCredResult := do
  match env.launchErr with
  | some m => throw m
  | none => pure ()
  match env.newPageErr with
  | some m => throw m
  | none => pure ()
  match scraperConfigLoginUrl platform with
  | none =>
    if platform ∈ objectProtoMembers then
      throw "Cannot navigate to invalid URL"
    else
      throw "Cannot read properties of undefined (reading loginUrl)"
  | some _ => pure ()
  match env.gotoErr with
  | some m => throw m
  | none => pure ()
  match env.loginStepsErr with
  | some m => throw m
  | none => pure ()
  pure
    { loginSuccessful := env.checkSuccess
      requires2FA := false
      sessionSaved := env.checkSuccess }

/-- The value the `try`/`catch` of `testCredentials` settles with, before
the `finally` block runs: the `catch` converts any thrown error into a
resolved record, inferring `requires2FA` from the message, so this is
always a record. -/
def testCredSettled (env : TestCredEnv) (platform : String) : TestCredResult :=
  match testCredentialsBody env platform with
  | .ok r => r
  | .error e =>
    { loginSuccessful := false
      requires2FA := jsIncludes e "2FA" || jsIncludes e "verification"
      sessionSaved := false }

/-- Translation of `testCredentials`.  After the `try`/`catch` settles on a
record, the `finally` block runs `if (browser) { await browser.close(); }`:
the `browser` variable is assigned exactly when `puppeteer.launch` did not
reject, and a rejected `browser.close()` there replaces the settled record
— the whole call rejects with the close error.  This `finally` rejection
is the one path on which `testCredentials` raises.  The email, password
and session id only influence what the environment does and are otherwise
unused. -/
def testCredentials (env : TestCredEnv) (_email _password platform : String)
    (_sessionId : Option String) : Except String TestCredResult :=
  match env.launchErr with
  | some _ => .ok (testCredSettled env platform)
  | none =>
    match env.closeErr with
    | some m => .error m
    | none => .ok (testCredSettled env platform)

/-! ## Claims -/

/-- C3 (the code contradicts the claim): `parseTimeframe` does not map
every unknown string to the `7d` duration.  `timeMap[timeframe]` is a
JavaScript property read that consults `Object.prototype`, so for an
inherited member name such as `"toString"` it yields the inherited truthy
member, the `||` keeps it, and the function returns a non-number —
contradicting its own `@returns {number} Timeframe in milliseconds`
documentation.  For every unknown string that is not a prototype-member
name the `7d` fallback does hold, and each known symbol maps to its own
duration. -/
theorem parseTimeframe_proto_leak :
    parseTimeframeJs "toString" = .protoMember "toString" ∧
    (∀ s, s ∈ objectProtoMembers → parseTimeframeJs s = .protoMember s) ∧
    (∀ s, s ∉ knownTimeframes → s ∉ objectProtoMembers →
      parseTimeframeJs s = .num (7 * 24 * 60 * 60 * 1000)) ∧
    parseTimeframeJs "7d" = .num (7 * 24 * 60 * 60 * 1000) ∧
    parseTimeframeJs "1h" = .num (60 * 60 * 1000) ∧
    parseTimeframeJs "6h" = .num (6 * 60 * 60 * 1000) ∧
    parseTimeframeJs "12h" = .num (12 * 60 * 60 * 1000) ∧
    parseTimeframeJs "1d" = .num (24 * 60 * 60 * 1000) ∧
    parseTimeframeJs "3d" = .num (3 * 24 * 60 * 60 * 1000) ∧
    parseTimeframeJs "30d" = .num (30 * 24 * 60 * 60 * 1000) := by
  refine ⟨by decide, ?_, ?_, by decide, by decide, by decide, by decide, by decide,
    by decide, by decide⟩
  · intro s hs
    simp only [objectProtoMembers, List.mem_cons, List.not_mem_nil, or_false] at hs
    rcases hs with rfl | rfl | rfl | rfl | rfl | rfl | rfl | rfl | rfl | rfl | rfl | rfl <;>
      decide
  · intro s hk hp
    simp only [knownTimeframes, List.mem_cons, List.not_mem_nil, or_false, not_or] at hk
    obtain ⟨h1, h2, h3, h4, h5, h6, h7⟩ := hk
    simp [parseTimeframeJs, timeMapRead, h1, h2, h3, h4, h5, h6, h7, hp]

/-- Witness for C3: the ordinary unknown symbol `"2h"` falls back to the
`7d` duration, while the prototype-member name `"constructor"` leaks the
inherited member. -/
theorem parseTimeframe_proto_leak_witness :
    parseTimeframeJs "2h" = .num (7 * 24 * 60 * 60 * 1000) ∧
    parseTimeframeJs "constructor" = .protoMember "constructor" :=
  ⟨parseTimeframe_proto_leak.2.2.1 "2h" (by decide) (by decide),
   parseTimeframe_proto_leak.2.1 "constructor" (by decide)⟩

/-- C4: the date-normalization used by the extraction pipeline
(`parseFacebookDate`) parses relative dates exactly: at reference instant
`T`, the text `"3 hours ago"` yields `T − 3` hours and `"Yesterday"` yields
`T − 24` hours, for any behaviour of the JS `Date` oracles (which these two
branches never consult). -/
theorem parseFacebookDate_relative_exact (jsD : String → Option Int)
    (monthD : String → Nat → Option Int) (T : Int) :
    parseFacebookDate jsD monthD T "3 hours ago" =
      some (.valid (T - 3 * (60 * 60 * 1000))) ∧
    parseFacebookDate jsD monthD T "Yesterday" =
      some (.valid (T - 24 * 60 * 60 * 1000)) :=
  ⟨rfl, rfl⟩

/-- C10: every character of a `generatePostId` result is an ASCII letter, a
digit, or an underscore, for all inputs. -/
theorem generatePostId_chars_sanitized (platform author : String) (timestamp index : Int) :
    (generatePostId platform author timestamp index).toList.all isIdChar = true := by
  have hrep : (generatePostId platform author timestamp index).toList
      = ((platform ++ "_" ++ author ++ "_" ++ toString timestamp ++ "_" ++
          toString index).toList).map (fun c => if isIdChar c then c else '_') := rfl
  rw [hrep, List.all_map, List.all_eq_true]
  intro c _
  show isIdChar (if isIdChar c then c else '_') = true
  by_cases h : isIdChar c = true
  · rw [if_pos h]
    exact h
  · rw [if_neg h]
    decide

/-- Membership in the key-table fold of `parseStats` comes either from the
accumulator or from an entry whose pattern list produced the value. -/
theorem mem_parseStats_foldl (entries : List (String × List StatPattern)) (cs : List Char)
    (acc : List (String × Nat)) (k : String) (n : Nat)
    (h : (k, n) ∈ entries.foldl
      (fun stats kp =>
        match runStatPatterns kp.2 cs with
        | some m => stats ++ [(kp.1, m)]
        | none => stats) acc) :
    (k, n) ∈ acc ∨ ∃ pats, (k, pats) ∈ entries ∧ runStatPatterns pats cs = some n := by
  induction entries generalizing acc with
  | nil => exact Or.inl h
  | cons e rest ih =>
    rw [List.foldl_cons] at h
    rcases hm : runStatPatterns e.2 cs with _ | m
    · rw [hm] at h
      rcases ih _ h with hacc | ⟨pats, hmem, hrun⟩
      · exact Or.inl hacc
      · exact Or.inr ⟨pats, List.mem_cons_of_mem _ hmem, hrun⟩
    · rw [hm] at h
      rcases ih _ h with hacc | ⟨pats, hmem, hrun⟩
      · rcases List.mem_append.mp hacc with hl | hr
        · exact Or.inl hl
        · have : (k, n) = (e.1, m) := List.mem_singleton.mp hr
          refine Or.inr ⟨e.2, ?_, ?_⟩
          · rw [show k = e.1 from congrArg Prod.fst this]
            exact List.mem_cons_self _ _
          · rw [hm, show n = m from congrArg Prod.snd this]
      · exact Or.inr ⟨pats, List.mem_cons_of_mem _ hmem, hrun⟩

/-- C5: a key appears in a `parseStats` result only when one of the
configured patterns for that key produced a numeric capture (commas
stripped); in particular `"1,250 likes · 42 comments"` on platform
`"twitter"` yields exactly likes = 1250 and replies = 42, and never a
`comments` key, since no comments pattern is configured for twitter. -/
theorem parseStats_keys_and_twitter_example :
    (∀ (text platform k : String) (n : Nat), (k, n) ∈ parseStats text platform →
      ∃ pats, (k, pats) ∈ statPatternsFor platform ∧
        runStatPatterns pats text.toList = some n) ∧
    parseStats "1,250 likes · 42 comments" "twitter" = [("likes", 1250), ("replies", 42)] ∧
    (∀ n : Nat, ("comments", n) ∉ parseStats "1,250 likes · 42 comments" "twitter") := by
  refine ⟨?_, by decide, ?_⟩
  · intro text platform k n h
    by_cases ht : text = ""
    · rw [parseStats, if_pos ht] at h
      exact absurd h (List.not_mem_nil _)
    · rw [parseStats, if_neg ht] at h
      rcases mem_parseStats_foldl _ _ _ _ _ h with hacc | hex
      · exact absurd hacc (List.not_mem_nil _)
      · exact hex
  · intro n hn
    have h2 : parseStats "1,250 likes · 42 comments" "twitter"
        = [("likes", 1250), ("replies", 42)] := by decide
    rw [h2] at hn
    simp only [List.mem_cons, List.not_mem_nil, or_false, Prod.mk.injEq] at hn
    rcases hn with ⟨hk, _⟩ | ⟨hk, _⟩ <;> exact absurd hk (by decide)

/-- Witness for C5: the likes key of the concrete example comes from a
configured twitter likes pattern. -/
theorem parseStats_keys_and_twitter_example_witness :
    ∃ pats, ("likes", pats) ∈ statPatternsFor "twitter" ∧
      runStatPatterns pats ("1,250 likes · 42 comments").toList = some 1250 :=
  parseStats_keys_and_twitter_example.1 "1,250 likes · 42 comments" "twitter" "likes" 1250
    (by decide)

/-- A benign credential-test environment: everything, including the final
`browser.close()`, succeeds. -/
def demoTestEnv : TestCredEnv :=
  { launchErr := none, newPageErr := none, gotoErr := none,
    loginStepsErr := none, checkSuccess := true, closeErr := none }

/-- The same environment, except that the `finally` block's
`browser.close()` rejects. -/
def demoCloseFailEnv : TestCredEnv :=
  { demoTestEnv with closeErr := some "Protocol error: Connection closed." }

/-- C7 counterexample: `testCredentials` CAN raise.  With a successfully
launched browser whose final `browser.close()` rejects, the `finally`
block's rejection escapes the `catch` and the call rejects instead of
resolving with a result record. -/
theorem testCredentials_never_raises_counterexample :
    testCredentials demoCloseFailEnv "e" "p" "twitter" none =
      .error "Protocol error: Connection closed." := rfl

/-- C7 as amended: `testCredentials` never raises from the credential-test
attempt itself — every failure of launch, page creation, unsupported
platform, navigation, login or 2FA/verification is reported only through
the returned record — and the only rejection the call can produce is that
of the `finally` block's `browser.close()`, after a successful launch,
with exactly the close error. -/
theorem testCredentials_raises_only_from_close (env : TestCredEnv)
    (email password platform : String) (sessionId : Option String) :
    (env.closeErr = none →
      ∃ r : TestCredResult,
        testCredentials env email password platform sessionId = .ok r) ∧
    (∀ m, testCredentials env email password platform sessionId = .error m →
      env.launchErr = none ∧ env.closeErr = some m) := by
  constructor
  · intro hc
    unfold testCredentials
    cases hl : env.launchErr with
    | some x => exact ⟨_, rfl⟩
    | none =>
      rw [hc]
      exact ⟨_, rfl⟩
  · intro m hm
    unfold testCredentials at hm
    cases hl : env.launchErr with
    | some x =>
      rw [hl] at hm
      exact absurd hm (fun h => Except.noConfusion h)
    | none =>
      rw [hl] at hm
      cases hcl : env.closeErr with
      | some x =>
        rw [hcl] at hm
        injection hm with h
        exact ⟨rfl, by rw [h]⟩
      | none =>
        rw [hcl] at hm
        exact absurd hm (fun h => Except.noConfusion h)

/-- Witness for C7 as amended, at a concrete environment whose
`browser.close()` does not reject. -/
theorem testCredentials_raises_only_from_close_witness :
    ∃ r : TestCredResult, testCredentials demoTestEnv "e" "p" "twitter" none = .ok r :=
  (testCredentials_raises_only_from_close demoTestEnv "e" "p" "twitter" none).1 rfl

/-! ### Invariants of the acquisition loop -/

/-- Every post surviving the final filter of `scrapeTwitterPosts` is at or
after the cutoff. -/
theorem mem_scrapeTwitterPosts_cutoff (sanitize : String → String) (now : Int)
    (tf : String) (page : Nat → List RawElem) (p : JsPost)
    (hp : p ∈ scrapeTwitterPosts sanitize now tf page) :
    now - (parseTimeframe tf : Int) ≤ p.date := by
  simp only [scrapeTwitterPosts, List.mem_filter] at hp
  exact of_decide_eq_true hp.2

/-- Every post surviving the final filter of `scrapeFacebookPosts` is at or
after the cutoff. -/
theorem mem_scrapeFacebookPosts_cutoff (sanitize : String → String)
    (jsD : String → Option Int) (monthD : String → Nat → Option Int) (now : Int)
    (tf : String) (page : Nat → List FbRawElem) (p : JsPost)
    (hp : p ∈ scrapeFacebookPosts sanitize jsD monthD now tf page) :
    now - (parseTimeframe tf : Int) ≤ p.date := by
  simp only [scrapeFacebookPosts, List.mem_filter] at hp
  exact of_decide_eq_true hp.2

/-- Pairwise distinctness of post ids, the invariant maintained by the
dedup check. -/
def idsPairwiseDistinct (l : List JsPost) : Prop :=
  l.Pairwise (fun a b => a.id ≠ b.id)

/-- Lemma: `dedupInsert` preserves pairwise-distinct ids: an id already present is
not appended again. -/
theorem dedupInsert_distinct (l : List JsPost) (p : JsPost)
    (h : idsPairwiseDistinct l) : idsPairwiseDistinct (dedupInsert l p) := by
  unfold dedupInsert
  split
  · exact h
  · next hc =>
    refine List.pairwise_append.mpr ⟨h, List.pairwise_singleton _ _, ?_⟩
    intro a ha b hb
    rw [List.mem_singleton] at hb
    subst hb
    intro heq
    exact hc (List.any_eq_true.mpr ⟨a, ha, by simp [heq]⟩)

/-- The inner harvesting loop preserves pairwise-distinct ids. -/
theorem harvestPosts_distinct {α : Type} (extract : α → Option JsPost)
    (elems : List α) (acc : List JsPost) (h : idsPairwiseDistinct acc) :
    idsPairwiseDistinct (harvestPosts extract elems acc) := by
  induction elems generalizing acc with
  | nil => exact h
  | cons e rest ih =>
    unfold harvestPosts at ih ⊢
    rw [List.foldl_cons]
    cases extract e with
    | none => exact ih _ h
    | some p => exact ih _ (dedupInsert_distinct _ _ h)

/-- The scroll loop preserves pairwise-distinct ids. -/
theorem scrollLoop_distinct {α : Type} (extract : α → Option JsPost)
    (page : Nat → List α) (limit : Nat) (a r : Nat) (acc : List JsPost)
    (h : idsPairwiseDistinct acc) :
    idsPairwiseDistinct (scrollLoop extract page limit a r acc) := by
  induction r generalizing a acc with
  | zero => exact h
  | succ r ih =>
    unfold scrollLoop
    split
    · exact ih _ _ (harvestPosts_distinct _ _ _ h)
    · exact h

/-- The posts of `scrapeTwitterPosts` carry pairwise-distinct ids. -/
theorem scrapeTwitterPosts_distinct (sanitize : String → String) (now : Int)
    (tf : String) (page : Nat → List RawElem) :
    idsPairwiseDistinct (scrapeTwitterPosts sanitize now tf page) := by
  unfold scrapeTwitterPosts
  exact List.Pairwise.filter _
    (scrollLoop_distinct _ _ _ _ _ _ (List.Pairwise.nil))

/-- The posts of `scrapeFacebookPosts` carry pairwise-distinct ids. -/
theorem scrapeFacebookPosts_distinct (sanitize : String → String)
    (jsD : String → Option Int) (monthD : String → Nat → Option Int) (now : Int)
    (tf : String) (page : Nat → List FbRawElem) :
    idsPairwiseDistinct (scrapeFacebookPosts sanitize jsD monthD now tf page) := by
  unfold scrapeFacebookPosts
  exact List.Pairwise.filter _
    (scrollLoop_distinct _ _ _ _ _ _ (List.Pairwise.nil))

/-! ### Branch equations of `scrapeWithCredentials` -/

/-- Unsupported platforms are rejected before the `try` block. -/
theorem scrape_eq_unsupported (env : ScrapeEnv) (w : World)
    (email pw u pf tf : String) (sid : Option String)
    (hpf : pf ∉ supportedPlatforms) :
    scrapeWithCredentials env w email pw u pf tf sid =
      { outcome := .err ("Unsupported platform: " ++ pf ++
          ". Supported platforms: twitter, instagram, linkedin")
        world := w, trace := [] } := by
  unfold scrapeWithCredentials
  rw [if_neg hpf]

/-- Branch equation: valid existing session and successful scrape. -/
theorem scrape_eq_reuse_ok (env : ScrapeEnv) (w : World)
    (email pw u pf tf : String) (sid : Option String) (posts : List JsPost)
    (hpf : pf ∈ supportedPlatforms)
    (hlog : (env.checkNavOk &&
      w.validSession.contains (resolveUserDataDir env.enc pf email sid)) = true)
    (htp : scrapeTargetProfile env pf u tf = .ok posts) :
    scrapeWithCredentials env w email pw u pf tf sid =
      { outcome := .ok
          { platform := pf, targetUser := u, timeframe := tf
            totalPosts := posts.length, scrapedAt := env.now
            sessionUsed := true, posts := posts }
        world := w
        trace := [.launchBrowser (resolveUserDataDir env.enc pf email sid),
                  .checkSession (resolveUserDataDir env.enc pf email sid)] } := by
  unfold scrapeWithCredentials
  rw [if_pos hpf]
  dsimp only
  rw [hlog, htp]
  rfl

/-- Branch equation: valid existing session and failing scrape. -/
theorem scrape_eq_reuse_err (env : ScrapeEnv) (w : World)
    (email pw u pf tf : String) (sid : Option String) (msg : String)
    (hpf : pf ∈ supportedPlatforms)
    (hlog : (env.checkNavOk &&
      w.validSession.contains (resolveUserDataDir env.enc pf email sid)) = true)
    (htp : scrapeTargetProfile env pf u tf = .error msg) :
    scrapeWithCredentials env w email pw u pf tf sid =
      { outcome := scrapeCatchOutcome msg
        world := w
        trace := [.launchBrowser (resolveUserDataDir env.enc pf email sid),
                  .checkSession (resolveUserDataDir env.enc pf email sid)] } := by
  unfold scrapeWithCredentials
  rw [if_pos hpf]
  dsimp only
  rw [hlog, htp]
  rfl

/-- Branch equation: no usable session and the login throws. -/
theorem scrape_eq_login_err (env : ScrapeEnv) (w : World)
    (email pw u pf tf : String) (sid : Option String) (msg : String)
    (hpf : pf ∈ supportedPlatforms)
    (hlog : (env.checkNavOk &&
      w.validSession.contains (resolveUserDataDir env.enc pf email sid)) = false)
    (hli : env.loginErr = some msg) :
    scrapeWithCredentials env w email pw u pf tf sid =
      { outcome := scrapeCatchOutcome msg
        world := w
        trace := [.launchBrowser (resolveUserDataDir env.enc pf email sid),
                  .checkSession (resolveUserDataDir env.enc pf email sid),
                  .performLogin] } := by
  unfold scrapeWithCredentials
  rw [if_pos hpf]
  dsimp only
  rw [hlog, hli]
  rfl

/-- Branch equation: no usable session, successful login and scrape. -/
theorem scrape_eq_login_ok (env : ScrapeEnv) (w : World)
    (email pw u pf tf : String) (sid : Option String) (posts : List JsPost)
    (hpf : pf ∈ supportedPlatforms)
    (hlog : (env.checkNavOk &&
      w.validSession.contains (resolveUserDataDir env.enc pf email sid)) = false)
    (hli : env.loginErr = none)
    (htp : scrapeTargetProfile env pf u tf = .ok posts) :
    scrapeWithCredentials env w email pw u pf tf sid =
      { outcome := .ok
          { platform := pf, targetUser := u, timeframe := tf
            totalPosts := posts.length, scrapedAt := env.now
            sessionUsed := false, posts := posts }
        world := { validSession :=
          resolveUserDataDir env.enc pf email sid :: w.validSession }
        trace := [.launchBrowser (resolveUserDataDir env.enc pf email sid),
                  .checkSession (resolveUserDataDir env.enc pf email sid),
                  .performLogin,
                  .saveSessionState (resolveUserDataDir env.enc pf email sid)] } := by
  unfold scrapeWithCredentials
  rw [if_pos hpf]
  dsimp only
  rw [hlog, hli, htp]
  rfl

/-- Branch equation: no usable session, successful login, failing scrape. -/
theorem scrape_eq_login_scrape_err (env : ScrapeEnv) (w : World)
    (email pw u pf tf : String) (sid : Option String) (msg : String)
    (hpf : pf ∈ supportedPlatforms)
    (hlog : (env.checkNavOk &&
      w.validSession.contains (resolveUserDataDir env.enc pf email sid)) = false)
    (hli : env.loginErr = none)
    (htp : scrapeTargetProfile env pf u tf = .error msg) :
    scrapeWithCredentials env w email pw u pf tf sid =
      { outcome := scrapeCatchOutcome msg
        world := { validSession :=
          resolveUserDataDir env.enc pf email sid :: w.validSession }
        trace := [.launchBrowser (resolveUserDataDir env.enc pf email sid),
                  .checkSession (resolveUserDataDir env.enc pf email sid),
                  .performLogin,
                  .saveSessionState (resolveUserDataDir env.enc pf email sid)] } := by
  unfold scrapeWithCredentials
  rw [if_pos hpf]
  dsimp only
  rw [hlog, hli, htp]
  rfl

/-- The result of the `catch` block is never a success value. -/
theorem scrapeCatchOutcome_ne_ok (msg : String) (r : ScrapeData) :
    scrapeCatchOutcome msg ≠ .ok r := by
  unfold scrapeCatchOutcome
  split <;> intro h <;> exact ScrapeOutcome.noConfusion h

/-- A successful call implies the platform was supported and its posts are
exactly the posts of `scrapeTargetProfile`. -/
theorem scrapeWithCredentials_ok_target (env : ScrapeEnv) (w : World)
    (email pw u pf tf : String) (sid : Option String) (r : ScrapeData)
    (hok : (scrapeWithCredentials env w email pw u pf tf sid).outcome = .ok r) :
    pf ∈ supportedPlatforms ∧ scrapeTargetProfile env pf u tf = .ok r.posts := by
  by_cases hpf : pf ∈ supportedPlatforms
  · refine ⟨hpf, ?_⟩
    cases hb : (env.checkNavOk &&
        w.validSession.contains (resolveUserDataDir env.enc pf email sid)) with
    | true =>
      cases htp : scrapeTargetProfile env pf u tf with
      | ok posts =>
        rw [scrape_eq_reuse_ok env w email pw u pf tf sid posts hpf hb htp] at hok
        have h2 : ScrapeOutcome.ok
            { platform := pf, targetUser := u, timeframe := tf
              totalPosts := posts.length, scrapedAt := env.now
              sessionUsed := true, posts := posts } = ScrapeOutcome.ok r := hok
        injection h2 with h3
        rw [← h3]
      | error m =>
        rw [scrape_eq_reuse_err env w email pw u pf tf sid m hpf hb htp] at hok
        exact absurd hok (scrapeCatchOutcome_ne_ok m r)
    | false =>
      cases hle : env.loginErr with
      | some m =>
        rw [scrape_eq_login_err env w email pw u pf tf sid m hpf hb hle] at hok
        exact absurd hok (scrapeCatchOutcome_ne_ok m r)
      | none =>
        cases htp : scrapeTargetProfile env pf u tf with
        | ok posts =>
          rw [scrape_eq_login_ok env w email pw u pf tf sid posts hpf hb hle htp] at hok
          have h2 : ScrapeOutcome.ok
              { platform := pf, targetUser := u, timeframe := tf
                totalPosts := posts.length, scrapedAt := env.now
                sessionUsed := false, posts := posts } = ScrapeOutcome.ok r := hok
          injection h2 with h3
          rw [← h3]
        | error m =>
          rw [scrape_eq_login_scrape_err env w email pw u pf tf sid m hpf hb hle htp] at hok
          exact absurd hok (scrapeCatchOutcome_ne_ok m r)
  · rw [scrape_eq_unsupported env w email pw u pf tf sid hpf] at hok
    exact absurd hok (fun h => ScrapeOutcome.noConfusion h)

/-- After a successful call the durable state holds a valid session for the
resolved directory. -/
theorem scrapeWithCredentials_ok_world (env : ScrapeEnv) (w : World)
    (email pw u pf tf : String) (sid : Option String) (r : ScrapeData)
    (hok : (scrapeWithCredentials env w email pw u pf tf sid).outcome = .ok r) :
    (scrapeWithCredentials env w email pw u pf tf sid).world.validSession.contains
      (resolveUserDataDir env.enc pf email sid) = true := by
  by_cases hpf : pf ∈ supportedPlatforms
  · cases hb : (env.checkNavOk &&
        w.validSession.contains (resolveUserDataDir env.enc pf email sid)) with
    | true =>
      cases htp : scrapeTargetProfile env pf u tf with
      | ok posts =>
        rw [scrape_eq_reuse_ok env w email pw u pf tf sid posts hpf hb htp]
        simp only [Bool.and_eq_true] at hb
        exact hb.2
      | error m =>
        rw [scrape_eq_reuse_err env w email pw u pf tf sid m hpf hb htp] at hok
        exact absurd hok (scrapeCatchOutcome_ne_ok m r)
    | false =>
      cases hle : env.loginErr with
      | some m =>
        rw [scrape_eq_login_err env w email pw u pf tf sid m hpf hb hle] at hok
        exact absurd hok (scrapeCatchOutcome_ne_ok m r)
      | none =>
        cases htp : scrapeTargetProfile env pf u tf with
        | ok posts =>
          rw [scrape_eq_login_ok env w email pw u pf tf sid posts hpf hb hle htp]
          simp [List.contains_cons]
        | error m =>
          rw [scrape_eq_login_scrape_err env w email pw u pf tf sid m hpf hb hle htp] at hok
          exact absurd hok (scrapeCatchOutcome_ne_ok m r)
  · rw [scrape_eq_unsupported env w email pw u pf tf sid hpf] at hok
    exact absurd hok (fun h => ScrapeOutcome.noConfusion h)

/-- C1: every post of a `ScrapeResult` returned by `scrapeWithCredentials`
has a date not earlier than the cutoff `now − parseTimeframe timeframe`
taken at call time; no older post appears in the output. -/
theorem scrape_posts_not_older_than_cutoff (env : ScrapeEnv) (w : World)
    (email pw u pf tf : String) (sid : Option String) (r : ScrapeData) (p : JsPost)
    (hok : (scrapeWithCredentials env w email pw u pf tf sid).outcome = .ok r)
    (hp : p ∈ r.posts) :
    env.now - (parseTimeframe tf : Int) ≤ p.date := by
  obtain ⟨_, htp⟩ := scrapeWithCredentials_ok_target env w email pw u pf tf sid r hok
  unfold scrapeTargetProfile at htp
  by_cases h1 : pf = "twitter"
  · rw [if_pos h1] at htp
    injection htp with h2
    rw [← h2] at hp
    exact mem_scrapeTwitterPosts_cutoff _ _ _ _ _ hp
  · rw [if_neg h1] at htp
    by_cases h2 : pf = "facebook"
    · rw [if_pos h2] at htp
      injection htp with h3
      rw [← h3] at hp
      exact mem_scrapeFacebookPosts_cutoff _ _ _ _ _ _ _ hp
    · rw [if_neg h2] at htp
      exact absurd htp (fun h => Except.noConfusion h)

/-- C2: within a single `ScrapeResult` returned by one scrape, the post ids
at any two distinct positions differ — duplicates are removed by the
acquisition loop's dedup check before a post is appended. -/
theorem scrape_post_ids_unique (env : ScrapeEnv) (w : World)
    (email pw u pf tf : String) (sid : Option String) (r : ScrapeData)
    (hok : (scrapeWithCredentials env w email pw u pf tf sid).outcome = .ok r)
    (i j : Nat) (hi : i < r.posts.length) (hj : j < r.posts.length) (hij : i ≠ j) :
    (r.posts.get ⟨i, hi⟩).id ≠ (r.posts.get ⟨j, hj⟩).id := by
  have hpw : idsPairwiseDistinct r.posts := by
    obtain ⟨_, htp⟩ := scrapeWithCredentials_ok_target env w email pw u pf tf sid r hok
    unfold scrapeTargetProfile at htp
    by_cases h1 : pf = "twitter"
    · rw [if_pos h1] at htp
      injection htp with h2
      rw [← h2]
      exact scrapeTwitterPosts_distinct _ _ _ _
    · rw [if_neg h1] at htp
      by_cases h2 : pf = "facebook"
      · rw [if_pos h2] at htp
        injection htp with h3
        rw [← h3]
        exact scrapeFacebookPosts_distinct _ _ _ _ _ _
      · rw [if_neg h2] at htp
        exact absurd htp (fun h => Except.noConfusion h)
  rw [idsPairwiseDistinct, List.pairwise_iff_get] at hpw
  rcases Nat.lt_or_ge i j with h | h
  · exact hpw ⟨i, hi⟩ ⟨j, hj⟩ h
  · have hji : j < i := Nat.lt_of_le_of_ne h (Ne.symm hij)
    exact (hpw ⟨j, hj⟩ ⟨i, hi⟩ hji).symm

/-- Recognizer for the session-cleanup action. -/
def SvcAction.isCleanSession : SvcAction → Bool
  | .cleanSessionAct _ => true
  | _ => false

/-- C6 (the code contradicts the claim): no execution path of
`scrapeWithCredentials` ever invalidates the session — the `catch` block's
`cleanSession` call reads the try-scoped `const userDataDir` and therefore
raises `ReferenceError` instead; in particular, when the login throws a
message containing `'login'` or `'authentication'` and there is no
existing session, the call ends in `referenceError` with the session
directory intact, rather than deleting it and surfacing the
authentication error. -/
theorem scrape_catch_never_cleans_session (env : ScrapeEnv) (w : World)
    (email pw u pf tf msg : String) (sid : Option String) :
    (((scrapeWithCredentials env w email pw u pf tf sid).trace.any
        SvcAction.isCleanSession) = false) ∧
    (pf ∈ supportedPlatforms → env.loginErr = some msg →
      (jsIncludes msg "login" || jsIncludes msg "authentication") = true →
      w.validSession = [] →
      (scrapeWithCredentials env w email pw u pf tf sid).outcome = .referenceError) := by
  constructor
  · by_cases hpf : pf ∈ supportedPlatforms
    · cases hb : (env.checkNavOk &&
          w.validSession.contains (resolveUserDataDir env.enc pf email sid)) with
      | true =>
        cases htp : scrapeTargetProfile env pf u tf with
        | ok posts =>
          rw [scrape_eq_reuse_ok env w email pw u pf tf sid posts hpf hb htp]
          rfl
        | error m =>
          rw [scrape_eq_reuse_err env w email pw u pf tf sid m hpf hb htp]
          rfl
      | false =>
        cases hle : env.loginErr with
        | some m =>
          rw [scrape_eq_login_err env w email pw u pf tf sid m hpf hb hle]
          rfl
        | none =>
          cases htp : scrapeTargetProfile env pf u tf with
          | ok posts =>
            rw [scrape_eq_login_ok env w email pw u pf tf sid posts hpf hb hle htp]
            rfl
          | error m =>
            rw [scrape_eq_login_scrape_err env w email pw u pf tf sid m hpf hb hle htp]
            rfl
    · rw [scrape_eq_unsupported env w email pw u pf tf sid hpf]
      rfl
  · intro hpf hle hmsg hw
    have hb : (env.checkNavOk &&
        w.validSession.contains (resolveUserDataDir env.enc pf email sid)) = false := by
      rw [hw]
      simp [List.contains]
    rw [scrape_eq_login_err env w email pw u pf tf sid msg hpf hb hle]
    show scrapeCatchOutcome msg = .referenceError
    unfold scrapeCatchOutcome
    rw [if_pos hmsg]

/-- C8: a second call for the same key against a world in which the first
call succeeded, with the session probe able to reach the persisted
profile, performs no credential submission and succeeds with
`sessionUsed` (the spec's `sessionReused`) set to true. -/
theorem session_reuse_second_call (env1 env2 : ScrapeEnv) (w0 : World)
    (email pw u pf tf : String) (sid : Option String) (r1 : ScrapeData)
    (hok1 : (scrapeWithCredentials env1 w0 email pw u pf tf sid).outcome = .ok r1)
    (hnav : env2.checkNavOk = true)
    (henc : env2.enc = env1.enc) :
    ((scrapeWithCredentials env2
        (scrapeWithCredentials env1 w0 email pw u pf tf sid).world
        email pw u pf tf sid).trace.contains .performLogin = false) ∧
    ∃ r2, (scrapeWithCredentials env2
        (scrapeWithCredentials env1 w0 email pw u pf tf sid).world
        email pw u pf tf sid).outcome = .ok r2 ∧ r2.sessionUsed = true := by
  obtain ⟨hpf, htp1⟩ := scrapeWithCredentials_ok_target env1 w0 email pw u pf tf sid r1 hok1
  have hw := scrapeWithCredentials_ok_world env1 w0 email pw u pf tf sid r1 hok1
  have htp2 : ∃ posts2, scrapeTargetProfile env2 pf u tf = .ok posts2 := by
    unfold scrapeTargetProfile at htp1 ⊢
    by_cases h1 : pf = "twitter"
    · rw [if_pos h1]
      exact ⟨_, rfl⟩
    · rw [if_neg h1] at htp1 ⊢
      by_cases h2 : pf = "facebook"
      · rw [if_pos h2]
        exact ⟨_, rfl⟩
      · rw [if_neg h2] at htp1
        exact absurd htp1 (fun h => Except.noConfusion h)
  obtain ⟨posts2, htp2⟩ := htp2
  have hlog2 : (env2.checkNavOk &&
      (scrapeWithCredentials env1 w0 email pw u pf tf sid).world.validSession.contains
        (resolveUserDataDir env2.enc pf email sid)) = true := by
    rw [hnav, henc, Bool.true_and]
    exact hw
  rw [scrape_eq_reuse_ok env2 _ email pw u pf tf sid posts2 hpf hlog2 htp2]
  exact ⟨rfl, ⟨_, rfl, rfl⟩⟩

/-- Every call on a supported platform launches a browser on the resolved
session directory, whatever the environment and world. -/
theorem scrape_trace_launch (env : ScrapeEnv) (w : World) (email pw u pf tf : String)
    (sid : Option String) (hpf : pf ∈ supportedPlatforms) :
    SvcAction.launchBrowser (resolveUserDataDir env.enc pf email sid) ∈
      (scrapeWithCredentials env w email pw u pf tf sid).trace := by
  cases hb : (env.checkNavOk &&
      w.validSession.contains (resolveUserDataDir env.enc pf email sid)) with
  | true =>
    cases htp : scrapeTargetProfile env pf u tf with
    | ok posts =>
      rw [scrape_eq_reuse_ok env w email pw u pf tf sid posts hpf hb htp]
      exact List.mem_cons_self _ _
    | error m =>
      rw [scrape_eq_reuse_err env w email pw u pf tf sid m hpf hb htp]
      exact List.mem_cons_self _ _
  | false =>
    cases hle : env.loginErr with
    | some m =>
      rw [scrape_eq_login_err env w email pw u pf tf sid m hpf hb hle]
      exact List.mem_cons_self _ _
    | none =>
      cases htp : scrapeTargetProfile env pf u tf with
      | ok posts =>
        rw [scrape_eq_login_ok env w email pw u pf tf sid posts hpf hb hle htp]
        exact List.mem_cons_self _ _
      | error m =>
        rw [scrape_eq_login_scrape_err env w email pw u pf tf sid m hpf hb hle htp]
        exact List.mem_cons_self _ _

/-- C9 (the code contradicts the claim): two calls that resolve to the same
(platform, account) key — whatever the state of the world, including one
in which the other call is still in flight — each launch a browser
instance on the same profile location.  The service consults no lock, no
queue and no in-use registry, and no `SessionBusyError` exists anywhere in
it, so the second caller is neither blocked nor rejected. -/
theorem concurrent_calls_launch_same_profile (env1 env2 : ScrapeEnv) (w1 w2 : World)
    (email pw u pf tf : String) (sid : Option String)
    (hpf : pf ∈ supportedPlatforms) (henc : env2.enc = env1.enc) :
    SvcAction.launchBrowser (resolveUserDataDir env1.enc pf email sid) ∈
      (scrapeWithCredentials env1 w1 email pw u pf tf sid).trace ∧
    SvcAction.launchBrowser (resolveUserDataDir env1.enc pf email sid) ∈
      (scrapeWithCredentials env2 w2 email pw u pf tf sid).trace := by
  refine ⟨scrape_trace_launch env1 w1 email pw u pf tf sid hpf, ?_⟩
  have h2 := scrape_trace_launch env2 w2 email pw u pf tf sid hpf
  rw [henc] at h2
  exact h2

/-! ### Concrete runs used by the witnesses -/

/-- A benign environment: the clock at 0, a working session probe, a login
that succeeds, and a Twitter page showing two tweets. -/
def demoEnv : ScrapeEnv where
  now := 0
  enc := fun _ => "abcdefgh"
  sanitize := id
  jsD := fun _ => none
  monthD := fun _ _ => none
  checkNavOk := true
  loginErr := none
  pageT := fun _ =>
    [.elem (some "hello") (some "bob") (some 5) "" none,
     .elem (some "bye") (some "al") (some 9) "" none]
  pageF := fun _ => []

/-- A world with no persisted sessions. -/
def demoWorld : World := { validSession := [] }

/-- The first post extracted from `demoEnv`. -/
def demoPost1 : JsPost :=
  { id := "twitter_bob_5_0", text := "hello", author := "bob", date := 5,
    timestamp := 5, platform := "twitter", url := "", stats := [] }

/-- The second post extracted from `demoEnv`. -/
def demoPost2 : JsPost :=
  { id := "twitter_al_9_0", text := "bye", author := "al", date := 9,
    timestamp := 9, platform := "twitter", url := "", stats := [] }

/-- The scrape data produced by the demo run. -/
def demoData : ScrapeData :=
  { platform := "twitter", targetUser := "u", timeframe := "7d", totalPosts := 2,
    scrapedAt := 0, sessionUsed := false, posts := [demoPost1, demoPost2] }

/-- The demo environment with a login that throws a navigation error whose
message contains the substring `login` (the login URL). -/
def demoEnvFail : ScrapeEnv :=
  { demoEnv with
      loginErr := some "net::ERR_CONNECTION_REFUSED at https://twitter.com/login" }

/-- Witness for C1 at the demo run. -/
theorem scrape_posts_not_older_than_cutoff_witness :
    demoEnv.now - (parseTimeframe "7d" : Int) ≤ demoPost1.date :=
  scrape_posts_not_older_than_cutoff demoEnv demoWorld "e" "p" "u" "twitter" "7d" none
    demoData demoPost1 (by decide) (by decide)

/-- Witness for C2 at the demo run. -/
theorem scrape_post_ids_unique_witness :
    (demoData.posts.get ⟨0, by decide⟩).id ≠ (demoData.posts.get ⟨1, by decide⟩).id :=
  scrape_post_ids_unique demoEnv demoWorld "e" "p" "u" "twitter" "7d" none demoData
    (by decide) 0 1 (by decide) (by decide) (by decide)

/-- Witness for C6: a login failure whose message names the login URL ends
in the catch-block `ReferenceError`, with no cleanup in the trace. -/
theorem scrape_catch_never_cleans_session_witness :
    ((scrapeWithCredentials demoEnvFail demoWorld "e" "p" "u" "twitter" "7d" none).trace.any
        SvcAction.isCleanSession) = false ∧
    (scrapeWithCredentials demoEnvFail demoWorld "e" "p" "u" "twitter" "7d" none).outcome
      = .referenceError :=
  ⟨(scrape_catch_never_cleans_session demoEnvFail demoWorld "e" "p" "u" "twitter" "7d"
      "net::ERR_CONNECTION_REFUSED at https://twitter.com/login" none).1,
   (scrape_catch_never_cleans_session demoEnvFail demoWorld "e" "p" "u" "twitter" "7d"
      "net::ERR_CONNECTION_REFUSED at https://twitter.com/login" none).2
      (by decide) rfl (by decide) rfl⟩

/-- Witness for C8 at the demo run: second call after the successful first
one reuses the session. -/
theorem session_reuse_second_call_witness :
    ((scrapeWithCredentials demoEnv
        (scrapeWithCredentials demoEnv demoWorld "e" "p" "u" "twitter" "7d" none).world
        "e" "p" "u" "twitter" "7d" none).trace.contains .performLogin = false) ∧
    ∃ r2, (scrapeWithCredentials demoEnv
        (scrapeWithCredentials demoEnv demoWorld "e" "p" "u" "twitter" "7d" none).world
        "e" "p" "u" "twitter" "7d" none).outcome = .ok r2 ∧ r2.sessionUsed = true :=
  session_reuse_second_call demoEnv demoEnv demoWorld "e" "p" "u" "twitter" "7d" none
    demoData (by decide) rfl rfl

/-- Witness for C9: two calls with the same key, one of them against a
world in which the other is mid-flight, both launch on the same profile
directory. -/
theorem concurrent_calls_launch_same_profile_witness :
    SvcAction.launchBrowser (resolveUserDataDir demoEnv.enc "twitter" "e" none) ∈
      (scrapeWithCredentials demoEnv demoWorld "e" "p" "u" "twitter" "7d" none).trace ∧
    SvcAction.launchBrowser (resolveUserDataDir demoEnv.enc "twitter" "e" none) ∈
      (scrapeWithCredentials demoEnvFail demoWorld "e" "p" "u" "twitter" "7d" none).trace :=
  concurrent_calls_launch_same_profile demoEnv demoEnvFail demoWorld demoWorld
    "e" "p" "u" "twitter" "7d" none (by decide) rfl
